import Mathlib

/-!
Verification development for the `pv-scripts` repository
(`get_ghi_pvout_pvlib.py`, `correct_chorio_specific_yield.py`).

The Python source is shallowly embedded over `ℚ`: pandas Series/DataFrames
become lists of key-value pairs, Python dicts become association lists,
`NaN` cells become `Option` `none`, and the sentinel `None` returned by the
broad `except` blocks becomes `Option.none` / `Except.error`.  All summary
statistics that pandas leaves as `NaN` (mean/min/max/std over too few rows)
are modelled as `Option.none`.  Key order produced by pandas `groupby`
(ascending keys) is reproduced by an insertion sort; all aggregations proved
about (sums, means over a group) are permutation invariant, so the sort only
matters for the shape of the emitted lists.
-/

set_option maxRecDepth 4000

/-! ### Generic series / group-by helpers (pandas semantics) -/

/-- Mean of a pandas numeric Series: `NaN` (here `none`) when empty. -/
def seriesMean (xs : List ℚ) : Option ℚ :=
  if xs.isEmpty then none else some (xs.sum / (xs.length : ℚ))

/-- Sample variance with `ddof = 1`, i.e. the square of pandas
`Series.std()`: `NaN` (here `none`) for fewer than two observations.
`std` itself is the square root of this value, so `std = 0` iff this is
`some 0` and `std` is `NaN` iff this is `none`; we stay in `ℚ` because the
square root leaves the rationals. -/
def seriesVarDdof1 (xs : List ℚ) : Option ℚ :=
  if xs.length < 2 then none
  else some (((xs.map (fun x => (x - xs.sum / (xs.length : ℚ)) ^ 2)).sum) /
    ((xs.length : ℚ) - 1))

/-- Insert into a `le`-sorted list (used to model pandas' sorted group keys). -/
def insertSorted {α : Type} (le : α → α → Bool) (a : α) : List α → List α
  | [] => [a]
  | b :: l => if le a b then a :: b :: l else b :: insertSorted le a l

/-- Insertion sort. -/
def sortKeys {α : Type} (le : α → α → Bool) (l : List α) : List α :=
  l.foldr (insertSorted le) []

/-- The distinct keys of a key-value list, in ascending order — the group
keys of a pandas `groupby`. -/
def keysSorted {K : Type} [DecidableEq K] (le : K → K → Bool)
    (l : List (K × ℚ)) : List K :=
  sortKeys le (l.map Prod.fst).dedup

/-- Model of `df.groupby(key)[col].sum()` as a key-value list with sorted keys. -/
def groupSums {K : Type} [DecidableEq K] (le : K → K → Bool)
    (l : List (K × ℚ)) : List (K × ℚ) :=
  (keysSorted le l).map (fun k =>
    (k, ((l.filter (fun p => decide (p.1 = k))).map Prod.snd).sum))

/-- Model of `df.groupby(key)[col].mean()` as a key-value list with sorted keys. -/
def groupMeans {K : Type} [DecidableEq K] (le : K → K → Bool)
    (l : List (K × ℚ)) : List (K × ℚ) :=
  (keysSorted le l).map (fun k =>
    (k, ((l.filter (fun p => decide (p.1 = k))).map Prod.snd).sum /
      (((l.filter (fun p => decide (p.1 = k))).length : ℚ))))

/-- Ascending order on month numbers. -/
def natLe (a b : ℕ) : Bool := decide (a ≤ b)

/-- Ascending (chronological) order on `(year, month)` keys. -/
def ymLe (a b : ℤ × ℕ) : Bool :=
  decide (a.1 < b.1) || (decide (a.1 = b.1) && decide (a.2 ≤ b.2))

/-- Ascending order on year keys. -/
def intLe (a b : ℤ) : Bool := decide (a ≤ b)

/-- Order on string keys (year labels in the summary group-by).  All the
statistics taken over groups are permutation invariant, so only totality
matters here. -/
def strLe (a b : String) : Bool := !(decide (b < a))

/-- Python `dict.get(k, 0)` on an association list. -/
def dictGetD (d : List (ℕ × ℚ)) (k : ℕ) : ℚ :=
  ((d.find? (fun p => decide (p.1 = k))).map Prod.snd).getD 0

/-! ### Rounding

Python's `round(x, 4)` rounds to four decimal places with ties going to the
even last digit.  (On binary floats the tie case is decided on the exact
binary value; over `ℚ` we use the ideal decimal tie-to-even rule.) -/

/-- Round to the nearest integer, ties to even. -/
def roundHalfEven (q : ℚ) : ℤ :=
  if q - (⌊q⌋ : ℚ) < 1/2 then ⌊q⌋
  else if (1:ℚ)/2 < q - (⌊q⌋ : ℚ) then ⌊q⌋ + 1
  else if ⌊q⌋ % 2 = 0 then ⌊q⌋ else ⌊q⌋ + 1

/-- Python `round(q, 4)`. -/
def round4 (q : ℚ) : ℚ := ((roundHalfEven (q * 10000) : ℤ) : ℚ) / 10000

theorem roundHalfEven_nonneg (q : ℚ) (h : 0 ≤ q) : 0 ≤ roundHalfEven q := by
  have hf : (0:ℤ) ≤ ⌊q⌋ := Int.floor_nonneg.mpr h
  unfold roundHalfEven
  split_ifs <;> omega

theorem round4_nonneg (q : ℚ) (h : 0 ≤ q) : 0 ≤ round4 q := by
  have h1 : (0:ℚ) ≤ ((roundHalfEven (q * 10000) : ℤ) : ℚ) := by
    exact_mod_cast roundHalfEven_nonneg _ (by positivity)
  exact div_nonneg h1 (by norm_num)

theorem round4_zero : round4 0 = 0 := by
  unfold round4 roundHalfEven
  norm_num

/-! ### Embedding of `calculate_performance_ratio` (lines 266-349)

The loop body (lines 328-347) builds, for each month `1..12`, one record
with the constant year label `'Monthly_Average'`, the average POA for the
month, the simulated PVOUT, the Sunny-Portal actual (each looked up with
`dict.get(month, 0)`), and the ratio
`real / pvout if pvout > 0 else 0`, rounded to 4 decimals. -/

structure PRRecord where
  year : String
  month : ℕ
  poa : ℚ
  pvout : ℚ
  realPvout : ℚ
  pr : ℚ
deriving DecidableEq, Repr

/-- One iteration of the `for month_num in range(1, 13)` loop. -/
def mkPRRecord (monthlyAvgPoa pvgisPvoutMonthly sunnyPortalData : List (ℕ × ℚ))
    (m : ℕ) : PRRecord :=
  ⟨"Monthly_Average", m,
    dictGetD monthlyAvgPoa m,
    dictGetD pvgisPvoutMonthly m,
    dictGetD sunnyPortalData m,
    round4 (if 0 < dictGetD pvgisPvoutMonthly m then
      dictGetD sunnyPortalData m / dictGetD pvgisPvoutMonthly m else 0)⟩

/-- The `pr_data` list built by the month loop of
`calculate_performance_ratio`. -/
def calc_pr_core (monthlyAvgPoa pvgisPvoutMonthly sunnyPortalData :
    List (ℕ × ℚ)) : List PRRecord :=
  (List.range' 1 12).map (mkPRRecord monthlyAvgPoa pvgisPvoutMonthly sunnyPortalData)

/-! ### Embedding of `load_sunny_portal_data` (lines 171-264)

The CSV is given already lexed: `yearCell` is the result of
`pd.to_numeric(first column, errors='coerce')` followed by `astype(int)`
(`none` = NaN, dropped), and each month cell is the result of
`pd.to_numeric(str.replace(',', '.'), errors='coerce')` (`none` = NaN,
turned into `0` by `.fillna(0)`).  `pd.to_datetime` only accepts
`(year, month)` pairs inside the pandas `Timestamp` range; a pair outside
it raises, the broad `except` catches, and the loader returns the `None`
sentinel — modelled as `Option.none`.  Likewise, when the first column
keeps the recognized-but-unrenamed label `'year'` or `'Έτος'`, the
`melt(id_vars=['Year'])` call raises `KeyError` and the loader returns
`None`. -/

structure RawRow where
  yearCell : Option ℤ
  cells : List (Option ℚ)
deriving DecidableEq, Repr

structure RawTable where
  firstColLabel : String
  monthLabels : List String
  rows : List RawRow
deriving DecidableEq, Repr

/-- The labels under which the first column is NOT renamed (line 190). -/
def yearColLabels : List String := ["Year", "year", "Έτος"]

/-- The first column's label after the renaming step (lines 188-191). -/
def effectiveFirstLabel (t : RawTable) : String :=
  if t.firstColLabel ∈ yearColLabels then t.firstColLabel else "Year"

/-- Model of `df = df.iloc[:-4]` (line 195): drop the last 4 rows positionally. -/
def keptRows (rows : List RawRow) : List RawRow :=
  rows.take (rows.length - 4)

/-- The `month_name_to_num` dict (lines 226-233): English full names,
Greek full names and Greek 3-letter abbreviations. -/
def month_name_to_num : List (String × ℕ) :=
  [("January", 1), ("February", 2), ("March", 3), ("April", 4), ("May", 5),
   ("June", 6), ("July", 7), ("August", 8), ("September", 9), ("October", 10),
   ("November", 11), ("December", 12),
   ("Ιανουάριος", 1), ("Φεβρουάριος", 2), ("Μάρτιος", 3), ("Απρίλιος", 4),
   ("Μάιος", 5), ("Ιούνιος", 6), ("Ιούλιος", 7), ("Αύγουστος", 8),
   ("Σεπτέμβριος", 9), ("Οκτώβριος", 10), ("Νοέμβριος", 11), ("Δεκέμβριος", 12),
   ("Ιαν", 1), ("Φεβ", 2), ("Μαρ", 3), ("Απρ", 4), ("Μαι", 5), ("Ιουν", 6),
   ("Ιουλ", 7), ("Αυγ", 8), ("Σεπ", 9), ("Οκτ", 10), ("Νοε", 11), ("Δεκ", 12)]

/-- Model of `df_melted['Month'].map(month_name_to_num)`; `none` = unmapped (dropped). -/
def monthMap (s : String) : Option ℕ :=
  (month_name_to_num.find? (fun p => decide (p.1 = s))).map Prod.snd

/-- The melt value columns: every column except `'Year'` and `'Total'`
(lines 201-205), paired with their positional index. -/
def valueLabels (t : RawTable) : List (ℕ × String) :=
  t.monthLabels.enum.filter
    (fun p => !(decide (p.2 = "Year")) && !(decide (p.2 = "Total")))

/-- Model of `df.melt(...)` (lines 207-210): one `(year cell, month label, value cell)`
triple per kept row and per value column, column-major as pandas melts. -/
def meltedCells (t : RawTable) : List (Option ℤ × String × Option ℚ) :=
  (valueLabels t).flatMap (fun p =>
    (keptRows t.rows).map (fun r => (r.yearCell, p.2, r.cells.getD p.1 none)))

/-- Lines 213-243: drop rows with unparseable year, `fillna(0)` the value,
map the month label (dropping unmapped ones). -/
def parsedEntries (t : RawTable) : List (ℤ × ℕ × ℚ) :=
  (meltedCells t).filterMap (fun c =>
    match c.1, monthMap c.2.1 with
    | some y, some m => some (y, m, (c.2.2).getD 0)
    | _, _ => none)

/-- Pandas `Timestamp` bounds for a month-start date (line 247's
`pd.to_datetime`): `Timestamp.min` is 1677-09-21 and `Timestamp.max` is
2262-04-11. -/
def tsOK (y : ℤ) (m : ℕ) : Bool :=
  decide ((1678 ≤ y ∧ y ≤ 2261) ∨ (y = 1677 ∧ 10 ≤ m) ∨ (y = 2262 ∧ m ≤ 4))

/-- Model of `load_sunny_portal_data`, from the parsed table to the
month → mean-specific-yield dict (line 255's
`groupby(df_melted.index.month).mean()`), or the `None` sentinel when an
exception was caught. -/
def load_sunny_portal_data (t : RawTable) : Option (List (ℕ × ℚ)) :=
  if effectiveFirstLabel t ≠ "Year" then none
  else if (parsedEntries t).any (fun e => !(tsOK e.1 e.2.1)) then none
  else some (groupMeans natLe ((parsedEntries t).map (fun e => (e.2.1, e.2.2))))

/-! ### Embedding of the PVOUT aggregation, fallback and outer pipeline -/

/-- Lines 304-305: `pvgis_hourly_data.resample('ME')['P'].sum() / 1000.0`.
Hourly samples are keyed by their `(year, month)`; within-month order is
irrelevant to a sum.  The same sum-then-scale shape is used for GHI in
`fetch_pvgis_data` (lines 110-113). -/
def pvout_monthly_sums (samples : List ((ℤ × ℕ) × ℚ)) : List ((ℤ × ℕ) × ℚ) :=
  (groupSums ymLe samples).map (fun p => (p.1, p.2 / 1000))

/-- Line 308: `groupby(index.month).mean()` over the monthly totals. -/
def pvgis_pvout_monthly_avg (samples : List ((ℤ × ℕ) × ℚ)) : List (ℕ × ℚ) :=
  groupMeans natLe ((pvout_monthly_sums samples).map (fun p => (p.1.2, p.2)))

/-- Lines 316-319: the hardcoded fallback month → PVOUT table. -/
def placeholder_pvout : List (ℕ × ℚ) :=
  [(1, 9437/100), (2, 10962/100), (3, 13789/100), (4, 15678/100),
   (5, 17845/100), (6, 22849/100), (7, 22467/100), (8, 20134/100),
   (9, 17823/100), (10, 15689/100), (11, 13456/100), (12, 12143/100)]

/-- Line 325: `poa_df.groupby('Month')['POA_kWh_m2'].mean()`.  A `poa_df`
row is `(Year, Month, POA_kWh_m2)`. -/
def monthly_avg_poa (poaDf : List (ℤ × ℕ × ℚ)) : List (ℕ × ℚ) :=
  groupMeans natLe (poaDf.map (fun r => (r.2.1, r.2.2)))

/-- Model of `calculate_performance_ratio` (lines 266-349).  `pvoutFetch` is the
outcome of the guarded PVGIS PVOUT fetch: `none` means the `except` branch
ran and the placeholder table is substituted (lines 312-319).
`sunnyPortalData` is the value returned by `load_sunny_portal_data`; when
it is the `None` sentinel, line 335 evaluates `None.get(month_num, 0)` and
the uncaught `AttributeError` aborts the caller — modelled as
`Except.error ()`. -/
def calculate_performance_ratio (poaDf : List (ℤ × ℕ × ℚ))
    (pvoutFetch : Option (List ((ℤ × ℕ) × ℚ)))
    (sunnyPortalData : Option (List (ℕ × ℚ))) : Except Unit (List PRRecord) :=
  let pvgisPvoutMonthly :=
    match pvoutFetch with
    | some hourlyP => pvgis_pvout_monthly_avg hourlyP
    | none => placeholder_pvout
  match sunnyPortalData with
  | none => Except.error ()
  | some d => Except.ok (calc_pr_core (monthly_avg_poa poaDf) pvgisPvoutMonthly d)

/-- The summary dict built by `save_results` (lines 370-377).  Each field
is `none` exactly where pandas produces `NaN`. -/
structure SummaryStats where
  annualAvgPoa : Option ℚ
  annualAvgPvout : Option ℚ
  avgPR : Option ℚ
  minPR : Option ℚ
  maxPR : Option ℚ
  varPR : Option ℚ
deriving DecidableEq, Repr

/-- Line 372: `pr_df.groupby('Year')['PVOUT_kWh_kWp'].sum().mean()`. -/
def annual_avg_pvout (prDf : List PRRecord) : Option ℚ :=
  seriesMean ((groupSums strLe (prDf.map (fun r => (r.year, r.pvout)))).map Prod.snd)

/-- Lines 370-377 of `save_results`: the summary statistics.  `varPR` is
the square of pandas' `std()` (see `seriesVarDdof1`). -/
def save_results_summary (poaDf : List (ℤ × ℕ × ℚ)) (prDf : List PRRecord) :
    SummaryStats :=
  ⟨seriesMean ((groupSums intLe (poaDf.map (fun r => (r.1, r.2.2)))).map Prod.snd),
   annual_avg_pvout prDf,
   seriesMean (prDf.map (fun r => r.pr)),
   (prDf.map (fun r => r.pr)).min?,
   (prDf.map (fun r => r.pr)).max?,
   seriesVarDdof1 (prDf.map (fun r => r.pr))⟩

/-- Outcome of one iteration of `main`'s site loop (lines 456-483). -/
inductive SiteResult where
  | skipped
  | crashed
  | completed (recs : List PRRecord) (stats : SummaryStats)
deriving DecidableEq, Repr

/-- One iteration of `main`'s site loop: `poaFetch` is what
`fetch_pvgis_data` returned (`none` on any fetch/processing failure, in
which case the site is skipped, line 483); `sunny` is what
`load_sunny_portal_data` returned; `pvoutFetch` as in
`calculate_performance_ratio`. -/
def process_site (poaFetch : Option (List (ℤ × ℕ × ℚ)))
    (sunny : Option (List (ℕ × ℚ)))
    (pvoutFetch : Option (List ((ℤ × ℕ) × ℚ))) : SiteResult :=
  match poaFetch with
  | none => SiteResult.skipped
  | some poaDf =>
    match calculate_performance_ratio poaDf pvoutFetch sunny with
    | Except.error _ => SiteResult.crashed
    | Except.ok recs => SiteResult.completed recs (save_results_summary poaDf recs)

/-! ### Supporting lemmas -/

theorem dictGetD_eq_zero (d : List (ℕ × ℚ)) (m : ℕ) (h : ∀ p ∈ d, p.1 ≠ m) :
    dictGetD d m = 0 := by
  have hf : d.find? (fun p => decide (p.1 = m)) = none := by
    rw [List.find?_eq_none]
    intro p hp
    simpa using h p hp
  simp [dictGetD, hf]

theorem sum_map_mul (c : ℚ) (l : List ℚ) :
    (l.map (fun x => c * x)).sum = c * l.sum := by
  induction l with
  | nil => simp
  | cons a t ih => simp [ih, mul_add]

theorem filter_map_sndScale (c : ℚ) (k : ℤ × ℕ) (l : List ((ℤ × ℕ) × ℚ)) :
    ((l.map (fun s => (s.1, c * s.2))).filter (fun p => decide (p.1 = k)))
      = (l.filter (fun p => decide (p.1 = k))).map (fun s => (s.1, c * s.2)) := by
  induction l with
  | nil => simp
  | cons a t ih =>
    by_cases h : a.1 = k <;> simp [h, ih]

theorem map_fst_sndScale (c : ℚ) (l : List ((ℤ × ℕ) × ℚ)) :
    (l.map (fun s => (s.1, c * s.2))).map Prod.fst = l.map Prod.fst := by
  simp [List.map_map]

theorem groupSums_sndScale (le : (ℤ × ℕ) → (ℤ × ℕ) → Bool) (c : ℚ)
    (l : List ((ℤ × ℕ) × ℚ)) :
    groupSums le (l.map (fun s => (s.1, c * s.2)))
      = (groupSums le l).map (fun p => (p.1, c * p.2)) := by
  unfold groupSums keysSorted
  rw [map_fst_sndScale, List.map_map]
  refine List.map_congr_left (fun k _ => ?_)
  rw [filter_map_sndScale, List.map_map]
  show (k, ((l.filter (fun p => decide (p.1 = k))).map (fun s => c * s.2)).sum) = _
  have : ((l.filter (fun p => decide (p.1 = k))).map (fun s => c * s.2)).sum
      = c * ((l.filter (fun p => decide (p.1 = k))).map Prod.snd).sum := by
    rw [← sum_map_mul, List.map_map]
    rfl
  simp [this]

theorem map_const_replicate {α β : Type} (b : β) (l : List α) :
    l.map (fun _ => b) = List.replicate l.length b := by
  induction l with
  | nil => rfl
  | cons a t ih => simp [ih, List.replicate_succ]

theorem dedup_replicate_succ {α : Type} [DecidableEq α] (n : ℕ) (a : α) :
    (List.replicate (n + 1) a).dedup = [a] := by
  induction n with
  | zero => rfl
  | succ k ih =>
    rw [List.replicate_succ, List.dedup_cons_of_mem (by simp), ih]

theorem filter_constKey (a : String) (vals : List ℚ) :
    ((vals.map (fun v => (a, v))).filter (fun p => decide (p.1 = a)))
      = vals.map (fun v => (a, v)) := by
  induction vals with
  | nil => rfl
  | cons x xs ih => simp [ih]

theorem groupSums_const_fst (le : String → String → Bool) (a : String)
    (vals : List ℚ) (h : vals ≠ []) :
    groupSums le (vals.map (fun v => (a, v))) = [(a, vals.sum)] := by
  obtain ⟨x, xs, rfl⟩ := List.exists_cons_of_ne_nil h
  unfold groupSums keysSorted
  have hk : ((x :: xs).map (fun v => (a, v))).map Prod.fst
      = List.replicate (x :: xs).length a := by
    rw [List.map_map]
    exact map_const_replicate a (x :: xs)
  rw [hk, List.length_cons, dedup_replicate_succ]
  have hs : sortKeys le [a] = [a] := rfl
  rw [hs, List.map_cons, List.map_nil, filter_constKey, List.map_map]
  simp

theorem seriesMean_singleton (x : ℚ) : seriesMean [x] = some x := by
  simp [seriesMean]

/-! ### Claim C1 -/

/-- Claim C1: every record emitted by the month loop of
`calculate_performance_ratio` carries `Performance_Ratio` equal to
`round(actual / simulated, 4)` when the simulated PVOUT is strictly
positive, and exactly `0` when the simulated PVOUT is `0` (for any actual
value, including `0`); and whenever the actual value is nonnegative (as all
physically meaningful yields are) the emitted value is nonnegative — over
`ℚ` it can never be NaN or infinite, the `simulated > 0` guard keeping the
division total. -/
theorem C1_pr_policy (a b c : List (ℕ × ℚ)) (r : PRRecord)
    (hr : r ∈ calc_pr_core a b c) :
    (0 < r.pvout → r.pr = round4 (r.realPvout / r.pvout))
    ∧ (r.pvout = 0 → r.pr = 0)
    ∧ (0 ≤ r.realPvout → 0 ≤ r.pr) := by
  obtain ⟨m, hm, rfl⟩ := List.mem_map.mp hr
  refine ⟨?_, ?_, ?_⟩
  · intro h
    show round4 (if 0 < dictGetD b m then dictGetD c m / dictGetD b m else 0) = _
    rw [if_pos (show 0 < dictGetD b m from h)]
    rfl
  · intro h
    show round4 (if 0 < dictGetD b m then dictGetD c m / dictGetD b m else 0) = 0
    rw [if_neg (by rw [show dictGetD b m = 0 from h]; exact lt_irrefl 0), round4_zero]
  · intro h
    show 0 ≤ round4 (if 0 < dictGetD b m then dictGetD c m / dictGetD b m else 0)
    by_cases hv : 0 < dictGetD b m
    · rw [if_pos hv]
      exact round4_nonneg _ (div_nonneg h hv.le)
    · rw [if_neg hv, round4_zero]

/-- Claim C1 witness: the spec's own scenario, simulated March PVOUT 150,
actual 157.5, ratio 1.05. -/
theorem C1_pr_policy_witness :
    ((mkPRRecord [] [(3, 150)] [(3, 315/2)] 3).pr
      = round4 ((mkPRRecord [] [(3, 150)] [(3, 315/2)] 3).realPvout /
          (mkPRRecord [] [(3, 150)] [(3, 315/2)] 3).pvout))
    ∧ 0 ≤ (mkPRRecord [] [(3, 150)] [(3, 315/2)] 3).pr :=
  ⟨(C1_pr_policy [] [(3, 150)] [(3, 315/2)] _
      (List.mem_map.mpr ⟨3, by decide, rfl⟩)).1
      (by norm_num [mkPRRecord, dictGetD, List.find?]),
   (C1_pr_policy [] [(3, 150)] [(3, 315/2)] _
      (List.mem_map.mpr ⟨3, by decide, rfl⟩)).2.2
      (by norm_num [mkPRRecord, dictGetD, List.find?])⟩

/-! ### Claim C2 -/

/-- Claim C2: for any inputs, the month loop emits exactly 12 records, one
per calendar month `1..12` in ascending order, regardless of which months
are present in either input dict; a month absent from the actuals dict (or
the simulated dict) contributes `0` on that side via `dict.get(m, 0)`
rather than being skipped. -/
theorem C2_twelve_months (a b c : List (ℕ × ℚ)) :
    ((calc_pr_core a b c).length = 12)
    ∧ ((calc_pr_core a b c).map (fun r => r.month) = List.range' 1 12)
    ∧ (∀ m : ℕ, (∀ p ∈ c, p.1 ≠ m) → ∀ r ∈ calc_pr_core a b c,
        r.month = m → r.realPvout = 0)
    ∧ (∀ m : ℕ, (∀ p ∈ b, p.1 ≠ m) → ∀ r ∈ calc_pr_core a b c,
        r.month = m → r.pvout = 0) := by
  refine ⟨by simp [calc_pr_core], ?_, ?_, ?_⟩
  · rw [calc_pr_core, List.map_map]
    have hc : ((fun r => PRRecord.month r) ∘ mkPRRecord a b c) = id := rfl
    rw [hc, List.map_id]
  · intro m hm r hr hrm
    obtain ⟨m', hm', rfl⟩ := List.mem_map.mp hr
    have hmm : m' = m := hrm
    subst hmm
    exact dictGetD_eq_zero c m' hm
  · intro m hm r hr hrm
    obtain ⟨m', hm', rfl⟩ := List.mem_map.mp hr
    have hmm : m' = m := hrm
    subst hmm
    exact dictGetD_eq_zero b m' hm

/-- Claim C2 witness: with every input dict empty the loop still emits 12
records and month 5's actual contribution is 0. -/
theorem C2_twelve_months_witness :
    ((calc_pr_core [] [] []).length = 12)
    ∧ ((mkPRRecord [] [] [] 5).realPvout = 0) :=
  ⟨(C2_twelve_months [] [] []).1,
   (C2_twelve_months [] [] []).2.2.1 5 (by simp) (mkPRRecord [] [] [] 5)
     (List.mem_map.mpr ⟨5, by decide, rfl⟩) rfl⟩

/-! ### Claim C10 -/

/-- Claim C10: every emitted record carries the constant year label
`'Monthly_Average'`, so `pr_df.groupby('Year')` in `save_results` forms a
single group and `Annual_Average_PVOUT_kWh_kWp` — nominally the mean of
per-year PVOUT totals — is just the sum of the 12 monthly simulated PVOUT
values. -/
theorem C10_single_year_group (a b c : List (ℕ × ℚ)) :
    ((calc_pr_core a b c).map (fun r => r.year)
      = List.replicate 12 "Monthly_Average")
    ∧ (annual_avg_pvout (calc_pr_core a b c)
      = some (((calc_pr_core a b c).map (fun r => r.pvout)).sum)) := by
  have hyear : (calc_pr_core a b c).map (fun r => r.year)
      = List.replicate 12 "Monthly_Average" := by
    rw [calc_pr_core, List.map_map]
    rw [show ((fun r => PRRecord.year r) ∘ mkPRRecord a b c)
      = fun _ => "Monthly_Average" from rfl]
    rw [map_const_replicate]
    simp
  refine ⟨hyear, ?_⟩
  have h2 : (calc_pr_core a b c).map (fun r => (r.year, r.pvout))
      = ((List.range' 1 12).map (fun m => dictGetD b m)).map
          (fun v => ("Monthly_Average", v)) := by
    rw [calc_pr_core, List.map_map, List.map_map]
    rfl
  have hne : ((List.range' 1 12).map (fun m => dictGetD b m)) ≠ [] := by
    simp [List.range']
  have h3 : ((calc_pr_core a b c).map (fun r => r.pvout)).sum
      = ((List.range' 1 12).map (fun m => dictGetD b m)).sum := by
    rw [calc_pr_core, List.map_map]
    rfl
  rw [annual_avg_pvout, h2, groupSums_const_fst strLe _ _ hne, h3]
  exact seriesMean_singleton _

/-! ### Claim C9 -/

/-- Claim C9: monthly-total aggregation of a simulated sample stream
(`resample('ME').sum() / 1000`, used both for PVOUT's `'P'` column and for
GHI in `fetch_pvgis_data`) is linear in the samples: scaling every sample
by `c` and aggregating equals aggregating and scaling every monthly total
by `c`; and in particular the fixed `1/1000` unit conversion commutes with
the per-month summation. -/
theorem C9_aggregation_linear (c : ℚ) (samples : List ((ℤ × ℕ) × ℚ)) :
    (pvout_monthly_sums (samples.map (fun s => (s.1, c * s.2)))
      = (pvout_monthly_sums samples).map (fun p => (p.1, c * p.2)))
    ∧ (groupSums ymLe (samples.map (fun s => (s.1, s.2 / 1000)))
      = pvout_monthly_sums samples) := by
  constructor
  · unfold pvout_monthly_sums
    rw [groupSums_sndScale, List.map_map, List.map_map]
    refine List.map_congr_left (fun p _ => ?_)
    show (p.1, c * p.2 / 1000) = (p.1, c * (p.2 / 1000))
    rw [mul_div_assoc]
  · have hdiv : (fun s : (ℤ × ℕ) × ℚ => (s.1, s.2 / 1000))
        = fun s : (ℤ × ℕ) × ℚ => (s.1, (1/1000 : ℚ) * s.2) := by
      funext s
      rw [show s.2 / 1000 = (1/1000 : ℚ) * s.2 by ring]
    rw [hdiv, groupSums_sndScale]
    unfold pvout_monthly_sums
    refine List.map_congr_left (fun p _ => ?_)
    show (p.1, (1/1000 : ℚ) * p.2) = (p.1, p.2 / 1000)
    rw [show (1/1000 : ℚ) * p.2 = p.2 / 1000 by ring]

/-- Claim C9 witness: a one-sample stream, scaled by 2. -/
theorem C9_aggregation_linear_witness :
    (pvout_monthly_sums ([((2012, 1), 5)].map (fun s => (s.1, 2 * s.2)))
      = (pvout_monthly_sums [((2012, 1), 5)]).map (fun p => (p.1, 2 * p.2)))
    ∧ (groupSums ymLe ([((2012, 1), 5)].map (fun s => (s.1, s.2 / 1000)))
      = pvout_monthly_sums [((2012, 1), 5)]) :=
  C9_aggregation_linear 2 [((2012, 1), 5)]

/-! ### Claim C5 -/

/-- Claim C5 (code-bug evidence): when the local actuals file is missing,
`load_sunny_portal_data` returns the `None` sentinel, and
`calculate_performance_ratio` then evaluates `None.get(month_num, 0)`
(line 335) — the uncaught `AttributeError` aborts the run instead of
proceeding with all-zero actuals as the spec requires. -/
theorem C5_missing_actuals_crash (poa : List (ℤ × ℕ × ℚ))
    (pv : Option (List ((ℤ × ℕ) × ℚ))) :
    calculate_performance_ratio poa pv none = Except.error ()
    ∧ process_site (some poa) none pv = SiteResult.crashed :=
  ⟨rfl, rfl⟩

/-- Claim C5 witness. -/
theorem C5_missing_actuals_crash_witness :
    calculate_performance_ratio [] none none = Except.error ()
    ∧ process_site (some []) none none = SiteResult.crashed :=
  C5_missing_actuals_crash [] none

/-! ### Claim C6 -/

/-- Claim C6 counterexample: a failure of the remote simulation source at
the first (POA/GHI) fetch — `fetch_pvgis_data` returning `None` — makes
`main` skip the site entirely (line 483); no placeholder is substituted
and no output is produced, contrary to the claim's "any failure". -/
theorem C6_poa_fetch_failure_skips :
    process_site none (some []) (some []) = SiteResult.skipped :=
  rfl

/-- Claim C6 (amended): a failure of the PVOUT simulation fetch inside
`calculate_performance_ratio` is recovered by substituting the hardcoded
12-entry placeholder table, and the site still completes with records and
summary computed against the placeholder. -/
theorem C6_placeholder_recovery (poa : List (ℤ × ℕ × ℚ)) (d : List (ℕ × ℚ)) :
    process_site (some poa) (some d) none
      = SiteResult.completed (calc_pr_core (monthly_avg_poa poa) placeholder_pvout d)
          (save_results_summary poa
            (calc_pr_core (monthly_avg_poa poa) placeholder_pvout d)) :=
  rfl

/-- Claim C6 witness. -/
theorem C6_placeholder_recovery_witness :
    process_site (some []) (some []) none
      = SiteResult.completed (calc_pr_core (monthly_avg_poa []) placeholder_pvout [])
          (save_results_summary []
            (calc_pr_core (monthly_avg_poa []) placeholder_pvout [])) :=
  C6_placeholder_recovery [] []

/-! ### Claim C4 -/

/-- Claim C4 counterexample: the summary step of `save_results` never
raises on empty input — it returns a summary whose ratio statistics are
all NaN (`none`) — and on a single record the ratio standard deviation is
NaN (pandas `std()` uses `ddof=1`), not `0`. -/
theorem C4_cex :
    (save_results_summary [] []).avgPR = none
    ∧ (save_results_summary []
        [⟨"Monthly_Average", 1, 0, 150, 120, 4/5⟩]).varPR ≠ some 0 := by
  exact ⟨rfl, by decide⟩

/-- Claim C4 (amended): on an empty record sequence the summary step
returns NaN (`none`) for the ratio mean, min, max and standard deviation
(no `EmptyInputError` exists in the code); on a single record the ratio
mean, min and max all equal that record's ratio, while the standard
deviation is NaN (`ddof=1`), not `0`. -/
theorem C4_nan_summary (poa : List (ℤ × ℕ × ℚ)) (r : PRRecord) :
    ((save_results_summary poa []).avgPR = none
      ∧ (save_results_summary poa []).minPR = none
      ∧ (save_results_summary poa []).maxPR = none
      ∧ (save_results_summary poa []).varPR = none)
    ∧ ((save_results_summary poa [r]).avgPR = some r.pr
      ∧ (save_results_summary poa [r]).minPR = some r.pr
      ∧ (save_results_summary poa [r]).maxPR = some r.pr
      ∧ (save_results_summary poa [r]).varPR = none) := by
  refine ⟨⟨rfl, rfl, rfl, rfl⟩, ⟨?_, rfl, rfl, rfl⟩⟩
  exact seriesMean_singleton r.pr

/-- Claim C4 witness. -/
theorem C4_nan_summary_witness :
    ((save_results_summary [] []).avgPR = none
      ∧ (save_results_summary [] []).minPR = none
      ∧ (save_results_summary [] []).maxPR = none
      ∧ (save_results_summary [] []).varPR = none)
    ∧ ((save_results_summary [] [⟨"Monthly_Average", 1, 0, 150, 120, 4/5⟩]).avgPR
        = some (⟨"Monthly_Average", 1, 0, 150, 120, 4/5⟩ : PRRecord).pr
      ∧ (save_results_summary [] [⟨"Monthly_Average", 1, 0, 150, 120, 4/5⟩]).minPR
        = some (⟨"Monthly_Average", 1, 0, 150, 120, 4/5⟩ : PRRecord).pr
      ∧ (save_results_summary [] [⟨"Monthly_Average", 1, 0, 150, 120, 4/5⟩]).maxPR
        = some (⟨"Monthly_Average", 1, 0, 150, 120, 4/5⟩ : PRRecord).pr
      ∧ (save_results_summary [] [⟨"Monthly_Average", 1, 0, 150, 120, 4/5⟩]).varPR
        = none) :=
  C4_nan_summary [] ⟨"Monthly_Average", 1, 0, 150, 120, 4/5⟩

/-! ### Claim C3 -/

/-- The spec's own scenario table, cut to the January column of the Chorio
file (`correct_chorio_specific_yield.py`): data rows 2010-2013 with
January = absent, 106.70, 53.28, 90.43, followed by the four summary rows
(`Mean value`, `Year portion`, `Yield expectations *`, `19823.81` — their
year cells parse to NaN except the last, but all four are dropped
positionally anyway). -/
def chorioJanTable : RawTable :=
  ⟨"Specific PV System Yield [kWh/kWp]", ["January"],
   [⟨some 2010, [none]⟩, ⟨some 2011, [some (1067/10)]⟩,
    ⟨some 2012, [some (1332/25)]⟩, ⟨some 2013, [some (9043/100)]⟩,
    ⟨none, [some (8281/100)]⟩, ⟨none, [none]⟩,
    ⟨none, [some (10815/100)]⟩, ⟨some 19823, [none]⟩]⟩

theorem chorioJanTable_parsed : parsedEntries chorioJanTable =
    [(2010, 1, 0), (2011, 1, 1067/10), (2012, 1, 1332/25), (2013, 1, 9043/100)] := by
  simp [parsedEntries, meltedCells, valueLabels, keptRows, monthMap, month_name_to_num,
    chorioJanTable, List.enum, List.enumFrom]

/-- Claim C3 counterexample: on the spec's own scenario (January present in
2011-2013 as 106.70, 53.28, 90.43 and absent in 2010), the profile value
for January is not 83.47: the absent 2010 cell is `fillna(0)`-ed and
included in the mean, which is (0 + 106.70 + 53.28 + 90.43)/4 = 62.6025. -/
theorem C3_cex :
    load_sunny_portal_data chorioJanTable ≠ some [(1, 8347/100)] := by
  have h := chorioJanTable_parsed
  have e1 : effectiveFirstLabel chorioJanTable = "Year" := by decide
  have ha : (([(2010, 1, 0), (2011, 1, 1067/10), (2012, 1, 1332/25),
      (2013, 1, 9043/100)] : List (ℤ × ℕ × ℚ)).any
        (fun e => !(tsOK e.1 e.2.1))) = false := by
    decide
  rw [load_sunny_portal_data, h, e1, ha]
  simp only [ne_eq, not_true_eq_false, if_false, Bool.false_eq_true]
  norm_num [groupMeans, keysSorted, sortKeys, insertSorted, natLe,
    List.dedup_cons_of_mem, List.dedup_cons_of_not_mem]

/-- Claim C3 (amended): absent cells are coerced to 0 by `.fillna(0)` and
included in the mean over all melted rows, so the scenario's January
profile value is (0 + 106.70 + 53.28 + 90.43)/4 = 62.6025, with the absent
2010 cell counted as a zero observation rather than excluded. -/
theorem C3_absent_counted_as_zero :
    load_sunny_portal_data chorioJanTable = some [(1, 25041/400)] := by
  have h := chorioJanTable_parsed
  have e1 : effectiveFirstLabel chorioJanTable = "Year" := by decide
  have ha : (([(2010, 1, 0), (2011, 1, 1067/10), (2012, 1, 1332/25),
      (2013, 1, 9043/100)] : List (ℤ × ℕ × ℚ)).any
        (fun e => !(tsOK e.1 e.2.1))) = false := by
    decide
  rw [load_sunny_portal_data, h, e1, ha]
  simp only [ne_eq, not_true_eq_false, if_false, Bool.false_eq_true]
  norm_num [groupMeans, keysSorted, sortKeys, insertSorted, natLe,
    List.dedup_cons_of_mem, List.dedup_cons_of_not_mem]

/-! ### Claim C7 -/

theorem flatMap_const_nil {α β : Type} (l : List α) :
    (l.flatMap (fun _ => ([] : List β))) = [] := by
  induction l with
  | nil => rfl
  | cons a t ih => simp [ih]

/-- Claim C7 counterexample: a table with fewer than 4 data rows whose
first column keeps the recognized-but-unrenamed label `'Έτος'` makes the
melt raise `KeyError` (no `'Year'` id column), so the loader returns the
`None` error sentinel — not an empty series. -/
theorem C7_cex :
    load_sunny_portal_data ⟨"Έτος", ["January"], []⟩ = none
    ∧ (none : Option (List (ℕ × ℚ))) ≠ some [] := by
  decide

/-- Claim C7 (amended): the loader drops exactly the last 4 rows
positionally, regardless of their content (appending any 4 rows and
dropping returns the original rows); and every table with fewer than 4
data rows yields the empty series — provided the first column's label is
not one of the recognized-but-unrenamed labels `'year'`/`'Έτος'`, for
which the melt raises and the loader returns the `None` sentinel instead. -/
theorem C7_drop_last_four (rows extra : List RawRow) (t : RawTable)
    (h4 : extra.length = 4) (hlab : t.firstColLabel ∉ ["year", "Έτος"])
    (hlen : t.rows.length < 4) :
    keptRows (rows ++ extra) = rows ∧ load_sunny_portal_data t = some [] := by
  constructor
  · unfold keptRows
    rw [List.length_append, h4, Nat.add_sub_cancel]
    exact List.take_left rows extra
  · have he : effectiveFirstLabel t = "Year" := by
      simp only [List.mem_cons, List.not_mem_nil, or_false, not_or] at hlab
      unfold effectiveFirstLabel yearColLabels
      by_cases hY : t.firstColLabel = "Year"
      · rw [if_pos (by simp [hY])]
        exact hY
      · rw [if_neg (by simp [hY, hlab.1, hlab.2])]
    have hkept : keptRows t.rows = [] := by
      unfold keptRows
      rw [Nat.sub_eq_zero_of_le (le_of_lt hlen), List.take_zero]
    have hm : meltedCells t = [] := by
      unfold meltedCells
      simp only [hkept, List.map_nil]
      exact flatMap_const_nil _
    have hp : parsedEntries t = [] := by
      rw [parsedEntries, hm]
      rfl
    rw [load_sunny_portal_data, he, hp]
    simp [groupMeans, keysSorted, sortKeys]

/-- Claim C7 witness. -/
theorem C7_drop_last_four_witness :
    keptRows ([] ++ [⟨none, []⟩, ⟨none, []⟩, ⟨none, []⟩, ⟨none, []⟩]) = []
    ∧ load_sunny_portal_data ⟨"Year", ["January"], [⟨some 2011, [some 1]⟩]⟩
        = some [] :=
  C7_drop_last_four [] [⟨none, []⟩, ⟨none, []⟩, ⟨none, []⟩, ⟨none, []⟩]
    ⟨"Year", ["January"], [⟨some 2011, [some 1]⟩]⟩ rfl (by decide) (by decide)

/-! ### Claim C8 -/

/-- Claim C8 counterexample: a table in which no year column is
identifiable at all (first column labeled `'Station'`, none of its cells
parse as a year) does not fail: the loader renames the first column to
`'Year'`, silently drops every row, and returns an empty series. -/
theorem C8_cex :
    load_sunny_portal_data ⟨"Station", ["January"],
      [⟨none, [some 5]⟩, ⟨none, [some 6]⟩, ⟨none, [some 7]⟩, ⟨none, [some 8]⟩,
       ⟨none, [some 9]⟩]⟩ = some [] := by
  decide

/-- Claim C8 (amended): the loader never performs a year-column
identifiability check and has no `ParseError`: it unconditionally treats
the first column as the year column (renaming it to `'Year'` unless it
already carries a recognized label), silently dropping rows whose year
cells do not parse.  It returns the `None` sentinel exactly when the first
column keeps the label `'year'` or `'Έτος'` (the melt then cannot find
the `'Year'` id column) or when some parsed `(year, month)` pair falls
outside the pandas `Timestamp` range. -/
theorem C8_no_year_check (t : RawTable) :
    load_sunny_portal_data t = none
      ↔ (t.firstColLabel = "year" ∨ t.firstColLabel = "Έτος"
          ∨ ((parsedEntries t).any (fun e => !(tsOK e.1 e.2.1))) = true) := by
  unfold load_sunny_portal_data
  by_cases h1 : effectiveFirstLabel t ≠ "Year"
  · rw [if_pos h1]
    constructor
    · intro _
      have hd : t.firstColLabel = "year" ∨ t.firstColLabel = "Έτος" := by
        unfold effectiveFirstLabel yearColLabels at h1
        by_cases hm : t.firstColLabel ∈ (["Year", "year", "Έτος"] : List String)
        · rw [if_pos hm] at h1
          simp only [List.mem_cons, List.not_mem_nil, or_false] at hm
          rcases hm with h | h | h
          · exact absurd h h1
          · exact Or.inl h
          · exact Or.inr h
        · rw [if_neg hm] at h1
          exact absurd rfl h1
      tauto
    · intro _
      rfl
  · rw [if_neg h1]
    push_neg at h1
    by_cases h2 : ((parsedEntries t).any (fun e => !(tsOK e.1 e.2.1))) = true
    · rw [if_pos h2]
      exact ⟨fun _ => Or.inr (Or.inr h2), fun _ => rfl⟩
    · rw [if_neg h2]
      constructor
      · intro hcontra
        exact absurd hcontra (by simp)
      · intro hdisj
        exfalso
        rcases hdisj with h | h | h
        · have he : effectiveFirstLabel t = "year" := by
            unfold effectiveFirstLabel yearColLabels
            rw [if_pos (by simp [h])]
            exact h
          rw [he] at h1
          exact absurd h1 (by decide)
        · have he : effectiveFirstLabel t = "Έτος" := by
            unfold effectiveFirstLabel yearColLabels
            rw [if_pos (by simp [h])]
            exact h
          rw [he] at h1
          exact absurd h1 (by decide)
        · exact absurd h h2

/-- Claim C8 witness: a table whose first column keeps the label `'year'`
makes the loader fail with the `None` sentinel. -/
theorem C8_no_year_check_witness :
    load_sunny_portal_data ⟨"year", ["January"], []⟩ = none :=
  (C8_no_year_check ⟨"year", ["January"], []⟩).mpr (Or.inl rfl)

/-- Claim C10 witness. -/
theorem C10_single_year_group_witness :
    ((calc_pr_core [] [] []).map (fun r => r.year)
      = List.replicate 12 "Monthly_Average")
    ∧ (annual_avg_pvout (calc_pr_core [] [] [])
      = some (((calc_pr_core [] [] []).map (fun r => r.pvout)).sum)) :=
  C10_single_year_group [] [] []
